import Mathlib

/-!
Verification of the V2I traffic-simulation engine.

The definitions below are a shallow embedding of the simulation engine of the
repository (the `SimulationContext` provider in its most mature revision:
four-phase independent signal control, route planning via
`plannedTurnIntersectionId`, and the in-path emergency preemption pass, plus the
`RoadGrid` class of the two-phase revision).

Modelling conventions, used consistently throughout:
* JS numbers are modelled as rationals (`ℚ`); all arithmetic in the engine is
  addition/subtraction/multiplication/division, which is exact on `ℚ`.
* Every host comparison of the form `Math.sqrt e < c` (with `c ≥ 0`) is
  translated to the exact equivalent `e < c^2`; distance fields therefore hold
  squared distances.  The square root itself is only ever needed to normalise a
  movement vector or to fill a reported message field, and is abstracted as an
  explicit function parameter `sq : ℚ → ℚ` there.
* `console.log`/`console.error` calls are pure logging; where a claim is about
  an error being signalled, the log is modelled explicitly, otherwise it is
  dropped.
* Direction-tagged phase strings (`NORTH_GREEN`, ...) are modelled as a
  per-direction record of `Phase` values, which is exactly the information the
  code reads back (`signal.phase.includes('GREEN')` etc.).
-/

namespace V2I

/-- Compass direction of travel (`'NORTH' | 'SOUTH' | 'EAST' | 'WEST'`). -/
inductive Dir
  | north
  | south
  | east
  | west
deriving DecidableEq, Repr, Fintype

/-- Turn intent of a vehicle (`'left' | 'right' | 'straight'`); the JS value
`null` is modelled as `Option.none` at use sites. -/
inductive TurnDir
  | left
  | right
  | straight
deriving DecidableEq, Repr

/-- A point in the plane, coordinates in pixels. -/
structure Pt where
  x : ℚ
  y : ℚ
deriving DecidableEq, Repr

/-- Squared Euclidean distance between `(px, py)` and `(qx, qy)`.  The host
computes `Math.sqrt` of this quantity; every comparison against a nonnegative
constant `c` is translated to a comparison of `distSq` against `c^2`. -/
def distSq (px py qx qy : ℚ) : ℚ :=
  (px - qx) ^ 2 + (py - qy) ^ 2

/-! ### VEHICLE_CONSTANTS (identical in all revisions) -/

def SAFE_DISTANCE : ℚ := 40
def LANE_TOLERANCE : ℚ := 15
def DECELERATION_FACTOR : ℚ := 8 / 10
def INTERSECTION_CHECK_DISTANCE : ℚ := 80
def EMERGENCY_CLEAR_DISTANCE : ℚ := 200
def DETECTION_DISTANCE : ℚ := 200
def PREEMPTION_MIN_DISTANCE : ℚ := 50
def INTERSECTION_SIZE : ℚ := 120
def EMERGENCY_STOP_THRESHOLD : ℚ := 30
def WAYPOINT_REACH_DISTANCE : ℚ := 10
def DESTINATION_REACH_DISTANCE : ℚ := 5
def V2I_COMMUNICATION_MAX_DISTANCE : ℚ := 300
def V2I_COMMUNICATION_MIN_DISTANCE : ℚ := 10
def V2I_REGULAR_COMMUNICATION_DISTANCE : ℚ := 80

/-! ### RoadGrid (two-phase revision)

The `RoadGrid` class: two vertical roads (centers x = 470, 970), two horizontal
roads (centers y = 270, 670), lane width 45.  On an out-of-range road index the
code executes `console.error(...)` and returns road 0's center coordinate; the
log is modelled by the `Bool` component of the result (`true` = an error was
logged), the returned coordinate by the `ℚ` component.  No exception is thrown
and no rejection value exists in the source, so the result is always a plain
coordinate. -/

def verticalRoadCenters : List ℚ := [470, 970]

def horizontalRoadCenters : List ℚ := [270, 670]

def laneWidth : ℚ := 45

/-- Function `RoadGrid.getVerticalRoadLaneX(roadIndex, lane, direction)`: X coordinate of
the lane center on a vertical road.  Out-of-range index: logs an error and
falls back to `verticalRoads[0].centerX`. -/
def getVerticalRoadLaneX (roadIndex : ℤ) (lane : ℕ) (direction : Dir) : ℚ × Bool :=
  if roadIndex < 0 ∨ (verticalRoadCenters.length : ℤ) ≤ roadIndex then
    (470, true)
  else
    let roadCenterX := verticalRoadCenters.getD roadIndex.toNat 470
    if direction = Dir.north then
      (if lane = 1 then roadCenterX + laneWidth / 2 else roadCenterX + laneWidth * 3 / 2, false)
    else
      (if lane = 1 then roadCenterX - laneWidth / 2 else roadCenterX - laneWidth * 3 / 2, false)

/-- Function `RoadGrid.getHorizontalRoadLaneY(roadIndex, lane, direction)`: Y coordinate
of the lane center on a horizontal road.  Out-of-range index: logs an error and
falls back to `horizontalRoads[0].centerY`. -/
def getHorizontalRoadLaneY (roadIndex : ℤ) (lane : ℕ) (direction : Dir) : ℚ × Bool :=
  if roadIndex < 0 ∨ (horizontalRoadCenters.length : ℤ) ≤ roadIndex then
    (270, true)
  else
    let roadCenterY := horizontalRoadCenters.getD roadIndex.toNat 270
    if direction = Dir.east then
      (if lane = 1 then roadCenterY - laneWidth / 2 else roadCenterY - laneWidth * 3 / 2, false)
    else
      (if lane = 1 then roadCenterY + laneWidth / 2 else roadCenterY + laneWidth * 3 / 2, false)

/-! ### Vehicle ids -/

/-- Id generation `Date.now() + Math.random()` in `addVehicle`.  `now` is the spawn time
in whole milliseconds, `rand` the value drawn from `Math.random()`
(`0 ≤ rand < 1`). -/
def vehicleId (now : ℕ) (rand : ℚ) : ℚ :=
  (now : ℚ) + rand

/-- Claim C9 as stated: in any sequence of spawn operations (spawn `k` happens
at millisecond `time k` and draws `rand k` from the random source), any two
distinct spawns receive distinct ids, for every possible outcome of the random
source. -/
def idsAlwaysDistinct : Prop :=
  ∀ (time : ℕ → ℕ) (rand : ℕ → ℚ),
    (∀ k, 0 ≤ rand k ∧ rand k < 1) →
    ∀ k l : ℕ, k ≠ l → vehicleId (time k) (rand k) ≠ vehicleId (time l) (rand l)

/-! ### Signals — four-phase independent ("Indian style") control

Phase strings `NORTH_GREEN`, `NORTH_YELLOW`, ... are direction-tagged; the code
only ever reads them back through `phase.includes('GREEN'|'YELLOW'|'RED')` for
the direction the record is stored under, so a per-direction `Phase` value is
an exact model. -/

/-- Signal phase of one direction. -/
inductive Phase
  | green
  | yellow
  | red
deriving DecidableEq, Repr

/-- One directional signal: `{ phase, timer }`, timer in milliseconds. -/
structure Signal where
  phase : Phase
  timer : ℚ
deriving DecidableEq, Repr

/-- The four directional signals of one intersection. -/
structure Signals where
  north : Signal
  south : Signal
  east : Signal
  west : Signal
deriving DecidableEq, Repr

def Signals.get (s : Signals) : Dir → Signal
  | Dir.north => s.north
  | Dir.south => s.south
  | Dir.east => s.east
  | Dir.west => s.west

def Signals.set (s : Signals) (d : Dir) (v : Signal) : Signals :=
  match d with
  | Dir.north => { s with north := v }
  | Dir.south => { s with south := v }
  | Dir.east => { s with east := v }
  | Dir.west => { s with west := v }

/-- Constant `TIMING.GREEN` of the mature revision (30 s). -/
def TIMING_GREEN : ℚ := 30000

/-- Constant `TIMING.YELLOW` of the mature revision (3 s). -/
def TIMING_YELLOW : ℚ := 3000

/-- An intersection.  The fields `emergencyMode`, `activeEmergencyVehicle` and
`receivedMessages` of the source objects are initialised and never read or
written by any pass, and are omitted. -/
structure Intersection where
  id : ℕ
  x : ℚ
  y : ℚ
  signals : Signals
  lastGreenDirection : Dir
  emergencyOverride : Bool
  emergencyTurnDirection : Option TurnDir
deriving DecidableEq, Repr

/-- Round-robin successor in `directionOrder = ['north','east','south','west']`:
`nextIndex = (indexOf(lastGreen) + 1) % 4`. -/
def nextDir : Dir → Dir
  | Dir.north => Dir.east
  | Dir.east => Dir.south
  | Dir.south => Dir.west
  | Dir.west => Dir.north

/-- Test `['north','south','east','west'].every(d => newSignals[d].phase.includes('RED'))`. -/
def allRed (s : Signals) : Bool :=
  decide (s.north.phase = Phase.red ∧ s.south.phase = Phase.red ∧
          s.east.phase = Phase.red ∧ s.west.phase = Phase.red)

/-- Mutable state threaded through the `forEach` of the signal-cycling effect:
the partially updated `newSignals` plus `intersection.lastGreenDirection`. -/
structure SigState where
  sigs : Signals
  lastGreen : Dir
deriving DecidableEq, Repr

/-- One iteration of the signal-cycling `forEach` body for direction `d`
(mature four-phase revision).  `speed` is `simulationSpeed`; the decrement per
100 ms interval is `100 * simulationSpeed`.  In the `allRed` sub-branch the
code assigns nothing when `d` is not the round-robin successor, so the signal
keeps its expired timer and retries next tick. -/
def stepDir (speed : ℚ) (st : SigState) (d : Dir) : SigState :=
  let signal := st.sigs.get d
  let newTimer := signal.timer - 100 * speed
  if newTimer ≤ 0 then
    match signal.phase with
    | Phase.green => ⟨st.sigs.set d ⟨Phase.yellow, TIMING_YELLOW⟩, st.lastGreen⟩
    | Phase.yellow => ⟨st.sigs.set d ⟨Phase.red, TIMING_GREEN⟩, st.lastGreen⟩
    | Phase.red =>
        if allRed st.sigs then
          if d = nextDir st.lastGreen then
            ⟨st.sigs.set d ⟨Phase.green, TIMING_GREEN⟩, d⟩
          else st
        else ⟨st.sigs.set d ⟨Phase.red, TIMING_GREEN⟩, st.lastGreen⟩
  else ⟨st.sigs.set d ⟨signal.phase, newTimer⟩, st.lastGreen⟩

/-- One 100 ms step of the signal-cycling effect on one intersection: a no-op
under `emergencyOverride`, otherwise the sequential per-direction update in
source order `['north','south','east','west']`. -/
def signalTickI (speed : ℚ) (i : Intersection) : Intersection :=
  if i.emergencyOverride then i
  else
    let st := [Dir.north, Dir.south, Dir.east, Dir.west].foldl (stepDir speed)
      ⟨i.signals, i.lastGreenDirection⟩
    { i with signals := st.sigs, lastGreenDirection := st.lastGreen }

/-! ### Initial intersections (mature revision: grid positions 490/990 × 290/690) -/

def init1 : Intersection :=
  ⟨1, 490, 290,
    ⟨⟨Phase.green, TIMING_GREEN⟩, ⟨Phase.red, TIMING_GREEN⟩,
     ⟨Phase.red, TIMING_GREEN⟩, ⟨Phase.red, TIMING_GREEN⟩⟩,
    Dir.west, false, none⟩

def init2 : Intersection :=
  ⟨2, 990, 290,
    ⟨⟨Phase.red, TIMING_GREEN⟩, ⟨Phase.red, TIMING_GREEN⟩,
     ⟨Phase.green, TIMING_GREEN⟩, ⟨Phase.red, TIMING_GREEN⟩⟩,
    Dir.north, false, none⟩

def init3 : Intersection :=
  ⟨3, 490, 690,
    ⟨⟨Phase.red, TIMING_GREEN⟩, ⟨Phase.green, TIMING_GREEN⟩,
     ⟨Phase.red, TIMING_GREEN⟩, ⟨Phase.red, TIMING_GREEN⟩⟩,
    Dir.east, false, none⟩

def init4 : Intersection :=
  ⟨4, 990, 690,
    ⟨⟨Phase.red, TIMING_GREEN⟩, ⟨Phase.red, TIMING_GREEN⟩,
     ⟨Phase.red, TIMING_GREEN⟩, ⟨Phase.green, TIMING_GREEN⟩⟩,
    Dir.south, false, none⟩

def initialIntersections : List Intersection := [init1, init2, init3, init4]

/-! ### Vehicles -/

/-- Vehicle kind, as passed to `addVehicle`. -/
inductive VType
  | car
  | bus
  | truck
  | emergency
  | firetruck
  | police
deriving DecidableEq, Repr

/-- Test `type === 'emergency' || type === 'firetruck' || type === 'police'`. -/
def isEmergencyType : VType → Bool
  | VType.emergency => true
  | VType.firetruck => true
  | VType.police => true
  | _ => false

/-- Vehicle status tag (the JS `status` strings). -/
inductive Status
  | moving
  | stopped
  | stoppedQueue
  | following
  | turning (t : TurnDir)
deriving DecidableEq, Repr

/-- A vehicle of the mature revision.  `turnAt` is never read by any modelled
pass and is omitted. -/
structure Vehicle where
  id : ℚ
  vtype : VType
  x : ℚ
  y : ℚ
  targetX : ℚ
  targetY : ℚ
  direction : Dir
  speed : ℚ
  stopped : Bool
  status : Status
  isEmergency : Bool
  turnDirection : Option TurnDir
  turnTo : Option Dir
  path : Option (List Pt)
  pathIndex : Option ℕ
  lane : ℕ
  plannedTurnIntersectionId : Option ℕ
deriving DecidableEq, Repr

/-- The `isInPath` / `isIntAhead` half-plane check: the point `(ix, iy)` lies
ahead of the vehicle in its current direction of travel. -/
def isAheadOf (v : Vehicle) (ix iy : ℚ) : Bool :=
  match v.direction with
  | Dir.north => decide (iy < v.y)
  | Dir.south => decide (iy > v.y)
  | Dir.east => decide (ix > v.x)
  | Dir.west => decide (ix < v.x)

/-! ### Emergency preemption pass (mature revision)

The effect runs whenever the vehicle list changes.  With no emergency vehicle
it resets every override; otherwise each intersection is threaded through a
`forEach` over the emergency vehicles carrying the mutable pair
`(updatedIntersection, hasEmergencyOverride)`. -/

/-- The `turnMap` for a left turn (counter-clockwise). -/
def leftTurnTarget : Dir → Dir
  | Dir.north => Dir.west
  | Dir.south => Dir.east
  | Dir.east => Dir.north
  | Dir.west => Dir.south

/-- The `turnMap` for a right turn (clockwise). -/
def rightTurnTarget : Dir → Dir
  | Dir.north => Dir.east
  | Dir.south => Dir.west
  | Dir.east => Dir.south
  | Dir.west => Dir.north

/-- Resolution of `actionAtThisIntersection`: initialised `'straight'`; replaced by the
vehicle's own `turnDirection` (which may be `null`) when
`plannedTurnIntersectionId === intersection.id && turnDirection !== 'straight'`. -/
def actionAt (ev : Vehicle) (i : Intersection) : Option TurnDir :=
  if ev.plannedTurnIntersectionId = some i.id ∧ ev.turnDirection ≠ some TurnDir.straight then
    ev.turnDirection
  else some TurnDir.straight

/-- The `targetDirection` resolution: the turn map for a `left`/`right` action at
this intersection, otherwise the vehicle's current direction. -/
def targetDirection (ev : Vehicle) (i : Intersection) : Dir :=
  match actionAt ev i with
  | some TurnDir.left => leftTurnTarget ev.direction
  | some TurnDir.right => rightTurnTarget ev.direction
  | _ => ev.direction

/-- The `newSignals` built under override: every direction RED with timer 0,
then only the target direction GREEN with timer `TIMING.GREEN`.  (The source
guards the assignment on the target being one of the four direction keys,
which is always the case.) -/
def overrideSignals (target : Dir) : Signals :=
  (Signals.mk ⟨Phase.red, 0⟩ ⟨Phase.red, 0⟩ ⟨Phase.red, 0⟩ ⟨Phase.red, 0⟩).set
    target ⟨Phase.green, TIMING_GREEN⟩

/-- Body of the `emergencyVehicles.forEach` in the preemption effect:
the accumulator is `(updatedIntersection, hasEmergencyOverride)`. -/
def evPreemptStep (acc : Intersection × Bool) (ev : Vehicle) : Intersection × Bool :=
  let i := acc.1
  let d2 := distSq ev.x ev.y i.x i.y
  if isAheadOf ev i.x i.y = true ∧
      d2 < DETECTION_DISTANCE ^ 2 ∧ d2 > PREEMPTION_MIN_DISTANCE ^ 2 then
    ({ i with
        emergencyOverride := true,
        signals := overrideSignals (targetDirection ev i),
        emergencyTurnDirection := actionAt ev i }, true)
  else if d2 > EMERGENCY_CLEAR_DISTANCE ^ 2 then
    if acc.2 = false then
      ({ i with emergencyOverride := false, emergencyTurnDirection := none }, acc.2)
    else acc
  else acc

/-- Reset `{...int, emergencyOverride: false, emergencyTurnDirection: null}` — the
reset applied to every intersection when no emergency vehicle exists. -/
def clearOverrideI (i : Intersection) : Intersection :=
  { i with emergencyOverride := false, emergencyTurnDirection := none }

/-- The per-intersection preemption fold over an (already filtered) list of
emergency vehicles. -/
def preemptIntersection (evs : List Vehicle) (i : Intersection) : Intersection :=
  (evs.foldl evPreemptStep (i, false)).1

/-- The preemption effect on one intersection, given the full vehicle list:
reset when no emergency vehicle exists, otherwise the `forEach` fold. -/
def preemptPassI (vehicles : List Vehicle) (i : Intersection) : Intersection :=
  let evs := vehicles.filter (fun v => v.isEmergency)
  if evs.isEmpty then clearOverrideI i
  else preemptIntersection evs i

/-- The preemption effect on the whole intersection list. -/
def preemptPass (vehicles : List Vehicle) (inters : List Intersection) : List Intersection :=
  inters.map (preemptPassI vehicles)

/-! ### Reachable intersection states and the mutual-exclusion invariant -/

/-- 1 if the signal is GREEN, else 0. -/
def g1 (s : Signal) : ℕ :=
  if s.phase = Phase.green then 1 else 0

/-- The number of directions currently holding a GREEN phase. -/
def countGreens (s : Signals) : ℕ :=
  g1 s.north + g1 s.south + g1 s.east + g1 s.west

/-- The intersection states reachable in the four-phase model: an initial
state, followed by any sequence of 100 ms signal-cycling steps and preemption
passes (the latter cover emergency override application, override clearing,
and the reset when no emergency vehicle remains). -/
inductive ReachableI : Intersection → Prop
  | init : ∀ i ∈ initialIntersections, ReachableI i
  | tick : ∀ (speed : ℚ) (i : Intersection), ReachableI i → ReachableI (signalTickI speed i)
  | preempt : ∀ (vehicles : List Vehicle) (i : Intersection),
      ReachableI i → ReachableI (preemptPassI vehicles i)

theorem Signals.get_set_self (s : Signals) (d : Dir) (v : Signal) :
    (s.set d v).get d = v := by
  cases d <;> rfl

theorem countGreens_set (s : Signals) (d : Dir) (v : Signal) :
    countGreens (s.set d v) = countGreens s - g1 (s.get d) + g1 v := by
  cases d <;> simp [Signals.set, Signals.get, countGreens] <;> omega

theorem allRed_countGreens (s : Signals) (h : allRed s = true) :
    countGreens s = 0 := by
  simp only [allRed, decide_eq_true_eq] at h
  simp [countGreens, g1, h.1, h.2.1, h.2.2.1, h.2.2.2]

theorem countGreens_stepDir (speed : ℚ) (st : SigState) (d : Dir)
    (h : countGreens st.sigs ≤ 1) : countGreens (stepDir speed st d).sigs ≤ 1 := by
  unfold stepDir
  dsimp only
  split
  · split
    next hp =>
      have hg : g1 (st.sigs.get d) = 1 := by simp [g1, hp]
      have hv : g1 ⟨Phase.yellow, TIMING_YELLOW⟩ = 0 := rfl
      rw [countGreens_set, hg, hv]
      omega
    next hp =>
      have hg : g1 (st.sigs.get d) = 0 := by simp [g1, hp]
      have hv : g1 ⟨Phase.red, TIMING_GREEN⟩ = 0 := rfl
      rw [countGreens_set, hg, hv]
      omega
    next hp =>
      split
      · split
        · have h0 := allRed_countGreens st.sigs (by assumption)
          have hv : g1 ⟨Phase.green, TIMING_GREEN⟩ = 1 := rfl
          rw [countGreens_set, hv, h0]
          omega
        · exact h
      · have hg : g1 (st.sigs.get d) = 0 := by simp [g1, hp]
        have hv : g1 ⟨Phase.red, TIMING_GREEN⟩ = 0 := rfl
        rw [countGreens_set, hg, hv]
        omega
  · have hv : g1 ⟨(st.sigs.get d).phase, (st.sigs.get d).timer - 100 * speed⟩
        = g1 (st.sigs.get d) := rfl
    have hle : g1 (st.sigs.get d) ≤ countGreens st.sigs := by
      cases d <;> simp [Signals.get, countGreens] <;> omega
    rw [countGreens_set, hv]
    omega

theorem countGreens_preemptStep (acc : Intersection × Bool) (ev : Vehicle)
    (h : countGreens acc.1.signals ≤ 1) :
    countGreens (evPreemptStep acc ev).1.signals ≤ 1 := by
  unfold evPreemptStep
  dsimp only
  split
  · have h1 : ∀ t : Dir, countGreens (overrideSignals t) = 1 := by decide
    exact (h1 _).le
  · split
    · split
      · exact h
      · exact h
    · exact h

theorem countGreens_preemptFold (evs : List Vehicle) (acc : Intersection × Bool)
    (h : countGreens acc.1.signals ≤ 1) :
    countGreens ((evs.foldl evPreemptStep acc).1).signals ≤ 1 := by
  induction evs generalizing acc with
  | nil => exact h
  | cons ev rest ih => exact ih _ (countGreens_preemptStep acc ev h)

theorem reachable_atMostOneGreen :
    ∀ i : Intersection, ReachableI i → countGreens i.signals ≤ 1 := by
  intro i h
  induction h with
  | init i hi =>
      simp only [initialIntersections, List.mem_cons, List.mem_singleton,
        List.not_mem_nil, or_false] at hi
      rcases hi with h | h | h | h <;> subst h <;> decide
  | tick speed i hr ih =>
      unfold signalTickI
      split
      · exact ih
      · simp only [List.foldl_cons, List.foldl_nil]
        exact countGreens_stepDir _ _ _ (countGreens_stepDir _ _ _
          (countGreens_stepDir _ _ _ (countGreens_stepDir _ _ _ ih)))
  | preempt vehicles i hr ih =>
      unfold preemptPassI
      dsimp only
      split
      · simpa [clearOverrideI] using ih
      · exact countGreens_preemptFold _ _ ih

theorem stepDir_green_source (speed : ℚ) (st : SigState) (d : Dir)
    (h : ((stepDir speed st d).sigs.get d).phase = Phase.green) :
    (st.sigs.get d).phase = Phase.green ∨ allRed st.sigs = true := by
  unfold stepDir at h
  dsimp only at h
  split at h
  · split at h
    next hp => exact Or.inl hp
    next hp =>
      rw [Signals.get_set_self] at h
      exact absurd h (by decide)
    next hp =>
      split at h
      · exact Or.inr (by assumption)
      · rw [Signals.get_set_self] at h
        exact absurd h (by decide)
  · rw [Signals.get_set_self] at h
    exact Or.inl h

/-- Claim C2: in the four-phase independent model, every reachable intersection
state — from the initial states, through any sequence of timer ticks and
preemption passes (override applications, clears, resets) — has at most one of
the four directions GREEN; the timer path only turns a direction GREEN when
all four directions are RED; and an emergency override grants exactly one
direction GREEN with the other three RED. -/
theorem claim_signal_mutual_exclusion :
    (∀ i : Intersection, ReachableI i → countGreens i.signals ≤ 1) ∧
    (∀ (speed : ℚ) (st : SigState) (d : Dir),
        ((stepDir speed st d).sigs.get d).phase = Phase.green →
        (st.sigs.get d).phase = Phase.green ∨ allRed st.sigs = true) ∧
    (∀ d : Dir, ((overrideSignals d).get d).phase = Phase.green ∧
        ∀ e : Dir, e ≠ d → ((overrideSignals d).get e).phase = Phase.red) :=
  ⟨reachable_atMostOneGreen, stepDir_green_source, by decide⟩

/-- Witness for C2: the theorem applied at the concrete initial state of
intersection 1, whose reachability hypothesis is discharged directly. -/
theorem claim_signal_mutual_exclusion_witness :
    countGreens init1.signals ≤ 1 :=
  claim_signal_mutual_exclusion.1 init1
    (ReachableI.init init1 (by simp [initialIntersections]))

/-! ### Preemption pass: window, target direction, clearance, dead zone -/

/-- Claim C1: the preemption pass begins preemption on an intersection for an
emergency vehicle exactly when the straight-line distance lies strictly
between `PREEMPTION_MIN_DISTANCE` (50 px) and `DETECTION_DISTANCE` (200 px)
and the intersection lies ahead of the vehicle in its direction of travel; an
intersection in the window but behind or beside the vehicle is never
preempted.  (Distances are compared in squared form.) -/
theorem claim_preemption_window_and_ahead (ev : Vehicle) (i : Intersection)
    (_he : ev.isEmergency = true) (h0 : i.emergencyOverride = false) :
    (preemptIntersection [ev] i).emergencyOverride = true ↔
      (isAheadOf ev i.x i.y = true ∧
        distSq ev.x ev.y i.x i.y < DETECTION_DISTANCE ^ 2 ∧
        distSq ev.x ev.y i.x i.y > PREEMPTION_MIN_DISTANCE ^ 2) := by
  unfold preemptIntersection
  simp only [List.foldl_cons, List.foldl_nil]
  unfold evPreemptStep
  dsimp only
  split_ifs with hc hclear hfl <;> simp_all

/-- Witness for C1: a concrete emergency vehicle 140 px north of intersection 1
heading SOUTH — inside the window and ahead, so the override is applied. -/
theorem claim_preemption_window_and_ahead_witness :
    (preemptIntersection
        [⟨0, VType.emergency, 490, 150, 490, 950, Dir.south, 4, false, Status.moving,
          true, none, none, none, none, 1, none⟩] init1).emergencyOverride = true ↔
      (isAheadOf
          ⟨0, VType.emergency, 490, 150, 490, 950, Dir.south, 4, false, Status.moving,
            true, none, none, none, none, 1, none⟩ init1.x init1.y = true ∧
        distSq 490 150 init1.x init1.y < DETECTION_DISTANCE ^ 2 ∧
        distSq 490 150 init1.x init1.y > PREEMPTION_MIN_DISTANCE ^ 2) :=
  claim_preemption_window_and_ahead _ init1 rfl rfl

/-- Claim C3: when the preemption branch applies, the direction forced GREEN is
the vehicle's turn-target direction precisely when its
`plannedTurnIntersectionId` equals this intersection's id and its turn is a
real turn (`left`/`right`); in every other case the vehicle's current
direction is forced GREEN.  The last conjunct records that a turn target never
coincides with the current direction, so the two cases are exclusive. -/
theorem claim_target_direction_resolution (ev : Vehicle) (i : Intersection)
    (_he : ev.isEmergency = true)
    (hahead : isAheadOf ev i.x i.y = true)
    (hlt : distSq ev.x ev.y i.x i.y < DETECTION_DISTANCE ^ 2)
    (hgt : distSq ev.x ev.y i.x i.y > PREEMPTION_MIN_DISTANCE ^ 2) :
    ((ev.plannedTurnIntersectionId = some i.id ∧ ev.turnDirection = some TurnDir.left →
        (preemptIntersection [ev] i).signals = overrideSignals (leftTurnTarget ev.direction)) ∧
      (ev.plannedTurnIntersectionId = some i.id ∧ ev.turnDirection = some TurnDir.right →
        (preemptIntersection [ev] i).signals = overrideSignals (rightTurnTarget ev.direction)) ∧
      (¬(ev.plannedTurnIntersectionId = some i.id ∧
          (ev.turnDirection = some TurnDir.left ∨ ev.turnDirection = some TurnDir.right)) →
        (preemptIntersection [ev] i).signals = overrideSignals ev.direction) ∧
      (∀ d : Dir, leftTurnTarget d ≠ d ∧ rightTurnTarget d ≠ d)) := by
  have hsig : (preemptIntersection [ev] i).signals
      = overrideSignals (targetDirection ev i) := by
    unfold preemptIntersection
    simp only [List.foldl_cons, List.foldl_nil]
    unfold evPreemptStep
    dsimp only
    rw [if_pos ⟨hahead, hlt, hgt⟩]
  have htarget : ∀ d : Dir, targetDirection ev i = d →
      (preemptIntersection [ev] i).signals = overrideSignals d := by
    intro d hd
    rw [hsig, hd]
  refine ⟨?_, ?_, ?_, by decide⟩
  · rintro ⟨hid, htd⟩
    apply htarget
    unfold targetDirection actionAt
    rw [if_pos ⟨hid, by rw [htd]; decide⟩, htd]
  · rintro ⟨hid, htd⟩
    apply htarget
    unfold targetDirection actionAt
    rw [if_pos ⟨hid, by rw [htd]; decide⟩, htd]
  · intro hn
    apply htarget
    unfold targetDirection actionAt
    split_ifs with hc
    · rcases htd : ev.turnDirection with _ | t
      · rfl
      · rcases t with _ | _ | _
        · exact absurd ⟨hc.1, Or.inl htd⟩ hn
        · exact absurd ⟨hc.1, Or.inr htd⟩ hn
        · exact absurd htd hc.2
    · rfl

/-- Witness for C3: the concrete vehicle of the C1 witness, additionally
planning a LEFT turn at intersection 1; approaching SOUTH turning left grants
EAST. -/
theorem claim_target_direction_resolution_witness :
    (preemptIntersection
        [⟨0, VType.emergency, 490, 150, 490, 950, Dir.south, 4, false, Status.moving,
          true, some TurnDir.left, some Dir.east, none, none, 1, some 1⟩] init1).signals
      = overrideSignals (leftTurnTarget Dir.south) :=
  (claim_target_direction_resolution _ init1 rfl (by decide)
      (by norm_num [distSq, DETECTION_DISTANCE, init1])
      (by norm_num [distSq, PREEMPTION_MIN_DISTANCE, init1])).1 ⟨rfl, rfl⟩

theorem evPreemptStep_far (acc : Intersection × Bool) (e : Vehicle)
    (hfl : acc.2 = false)
    (hfar : EMERGENCY_CLEAR_DISTANCE ^ 2 < distSq e.x e.y acc.1.x acc.1.y) :
    evPreemptStep acc e
      = ({ acc.1 with emergencyOverride := false, emergencyTurnDirection := none }, false) := by
  have hnot : ¬(isAheadOf e acc.1.x acc.1.y = true ∧
      distSq e.x e.y acc.1.x acc.1.y < DETECTION_DISTANCE ^ 2 ∧
      distSq e.x e.y acc.1.x acc.1.y > PREEMPTION_MIN_DISTANCE ^ 2) := by
    rintro ⟨-, hlt, -⟩
    rw [EMERGENCY_CLEAR_DISTANCE] at hfar
    rw [DETECTION_DISTANCE] at hlt
    linarith
  unfold evPreemptStep
  dsimp only
  rw [if_neg hnot, if_pos hfar, if_pos hfl, hfl]

theorem preemptFold_far_preserve (evs : List Vehicle) (xi yi : ℚ) :
    ∀ acc : Intersection × Bool,
    acc.1.x = xi → acc.1.y = yi → acc.2 = false →
    acc.1.emergencyOverride = false → acc.1.emergencyTurnDirection = none →
    (∀ ev ∈ evs, EMERGENCY_CLEAR_DISTANCE ^ 2 < distSq ev.x ev.y xi yi) →
    ((evs.foldl evPreemptStep acc).1.emergencyOverride = false ∧
      (evs.foldl evPreemptStep acc).1.emergencyTurnDirection = none) := by
  induction evs with
  | nil =>
      intro acc _ _ _ hov htd _
      exact ⟨hov, htd⟩
  | cons e rest ih =>
      intro acc hx hy hfl hov htd hfar
      rw [List.foldl_cons]
      rw [evPreemptStep_far acc e hfl
        (by rw [hx, hy]; exact hfar e (List.mem_cons_self e rest))]
      exact ih _ hx hy rfl rfl rfl
        (fun ev hev => hfar ev (List.mem_cons_of_mem e hev))

/-- Claim C4: once every emergency vehicle's distance to an intersection
exceeds `EMERGENCY_CLEAR_DISTANCE` (200 px) — so no emergency vehicle still
requires an override there — the next preemption pass resets the
intersection's `emergencyOverride` to `false` and clears
`emergencyTurnDirection`.  The vehicle list (hence the processing order of the
emergency vehicles) is arbitrary, so this holds regardless of order; it also
covers the reset taken when no emergency vehicle remains at all. -/
theorem claim_preemption_clearance (vehicles : List Vehicle) (i : Intersection)
    (hfar : ∀ ev ∈ vehicles.filter (fun v => v.isEmergency),
        EMERGENCY_CLEAR_DISTANCE ^ 2 < distSq ev.x ev.y i.x i.y) :
    (preemptPassI vehicles i).emergencyOverride = false ∧
      (preemptPassI vehicles i).emergencyTurnDirection = none := by
  unfold preemptPassI
  dsimp only
  rcases hevs : vehicles.filter (fun v => v.isEmergency) with _ | ⟨e, rest⟩
  · rw [hevs]
    simp [clearOverrideI]
  · rw [hevs] at hfar
    rw [hevs]
    simp only [List.isEmpty_cons, Bool.false_eq_true, if_false]
    unfold preemptIntersection
    rw [List.foldl_cons]
    rw [evPreemptStep_far (i, false) e rfl (hfar e (List.mem_cons_self e rest))]
    exact preemptFold_far_preserve rest i.x i.y _ rfl rfl rfl rfl rfl
      (fun ev hev => hfar ev (List.mem_cons_of_mem e hev))

/-- Witness for C4: a single emergency vehicle 660 px away from intersection 1;
the pass clears the override. -/
theorem claim_preemption_clearance_witness :
    (preemptPassI
        [⟨0, VType.emergency, 490, 950, 490, -50, Dir.north, 4, false, Status.moving,
          true, none, none, none, none, 1, none⟩] init1).emergencyOverride = false ∧
      (preemptPassI
        [⟨0, VType.emergency, 490, 950, 490, -50, Dir.north, 4, false, Status.moving,
          true, none, none, none, none, 1, none⟩] init1).emergencyTurnDirection = none :=
  claim_preemption_clearance _ init1 (by
    intro ev hev
    simp only [List.filter, List.mem_singleton] at hev
    subst hev
    norm_num [distSq, EMERGENCY_CLEAR_DISTANCE, init1])

/-- Claim C10 (implicit dead zone): with exactly one active emergency vehicle
whose distance to an intersection is at most `PREEMPTION_MIN_DISTANCE` (50 px)
— i.e. it is crossing the intersection — the preemption pass leaves the
intersection completely unchanged: neither the preemption branch nor the
clearance branch applies, so signals, `emergencyOverride` and
`emergencyTurnDirection` all persist. -/
theorem claim_dead_zone_frame (vehicles : List Vehicle) (ev : Vehicle) (i : Intersection)
    (hf : vehicles.filter (fun v => v.isEmergency) = [ev])
    (hd : distSq ev.x ev.y i.x i.y ≤ PREEMPTION_MIN_DISTANCE ^ 2) :
    preemptPassI vehicles i = i := by
  unfold preemptPassI
  dsimp only
  rw [hf]
  simp only [List.isEmpty_cons, Bool.false_eq_true, if_false]
  unfold preemptIntersection
  simp only [List.foldl_cons, List.foldl_nil]
  unfold evPreemptStep
  dsimp only
  rw [if_neg, if_neg]
  · rw [PREEMPTION_MIN_DISTANCE] at hd
    rw [EMERGENCY_CLEAR_DISTANCE]
    intro hgt
    linarith
  · rintro ⟨-, -, hgt⟩
    rw [PREEMPTION_MIN_DISTANCE] at hd hgt
    linarith

/-- Witness for C10: a single emergency vehicle 40 px from intersection 1 (it
is crossing); the pass returns the intersection unchanged. -/
theorem claim_dead_zone_frame_witness :
    preemptPassI
        [⟨0, VType.emergency, 490, 250, 490, 950, Dir.south, 4, false, Status.moving,
          true, none, none, none, none, 1, none⟩] init1 = init1 :=
  claim_dead_zone_frame _
    ⟨0, VType.emergency, 490, 250, 490, 950, Dir.south, 4, false, Status.moving,
      true, none, none, none, none, 1, none⟩ init1 rfl
    (by norm_num [distSq, PREEMPTION_MIN_DISTANCE, init1])

/-! ### RoadGrid out-of-range indices (C8) and vehicle id uniqueness (C9) -/

/-- Counterexample to claim C8 as stated: the lane-coordinate queries do not
fail fast on an out-of-range road index — the call with index −1 (resp. 5)
returns the road-0 center coordinate as an ordinary value (the `true` flag
records only a `console.error` log, not a rejection). -/
theorem claim_roadgrid_invalid_index_cex :
    getVerticalRoadLaneX (-1) 1 Dir.north = (470, true) ∧
      getHorizontalRoadLaneY 5 1 Dir.east = (270, true) := by
  constructor <;> rfl

/-- Claim C8, amended: for every road index outside the configured range, the
RoadGrid lane queries log an error and return the index-0 road's center
coordinate (470 for vertical roads, 270 for horizontal roads) as a fallback;
they do not reject the call. -/
theorem claim_roadgrid_invalid_index (roadIndex : ℤ) (lane : ℕ) (direction : Dir)
    (h : roadIndex < 0 ∨ 2 ≤ roadIndex) :
    getVerticalRoadLaneX roadIndex lane direction = (470, true) ∧
      getHorizontalRoadLaneY roadIndex lane direction = (270, true) := by
  have hv : roadIndex < 0 ∨ ((verticalRoadCenters.length : ℤ) ≤ roadIndex) := by
    simpa [verticalRoadCenters] using h
  have hh : roadIndex < 0 ∨ ((horizontalRoadCenters.length : ℤ) ≤ roadIndex) := by
    simpa [horizontalRoadCenters] using h
  constructor
  · unfold getVerticalRoadLaneX
    rw [if_pos hv]
  · unfold getHorizontalRoadLaneY
    rw [if_pos hh]

/-- Witness for the amended C8, at the concrete out-of-range index −1. -/
theorem claim_roadgrid_invalid_index_witness :
    getVerticalRoadLaneX (-1) 2 Dir.south = (470, true) ∧
      getHorizontalRoadLaneY (-1) 2 Dir.west = (270, true) :=
  ⟨(claim_roadgrid_invalid_index (-1) 2 Dir.south (Or.inl (by norm_num))).1,
    (claim_roadgrid_invalid_index (-1) 2 Dir.west (Or.inl (by norm_num))).2⟩

/-- Counterexample to claim C9 as stated: id generation does not guarantee
uniqueness for all outcomes of the random source — two distinct spawns in the
same millisecond (1000) that both draw 1/2 receive the same id. -/
theorem claim_vehicle_id_uniqueness_cex : ¬ idsAlwaysDistinct := by
  intro h
  exact h (fun _ => 1000) (fun _ => 1 / 2) (fun _ => by norm_num) 0 1
    (by decide) rfl

/-- Claim C9, amended: two spawns receive the same id exactly when they occur
in the same millisecond and draw the same value from the random source.
Spawns in different milliseconds always receive distinct ids, but two spawns
in the same millisecond collide whenever the random draws coincide, so
uniqueness holds only probabilistically, not for all outcomes. -/
theorem claim_vehicle_id_uniqueness (t1 t2 : ℕ) (r1 r2 : ℚ)
    (h10 : 0 ≤ r1) (h11 : r1 < 1) (h20 : 0 ≤ r2) (h21 : r2 < 1) :
    vehicleId t1 r1 = vehicleId t2 r2 ↔ (t1 = t2 ∧ r1 = r2) := by
  unfold vehicleId
  constructor
  · intro h
    have ht : t1 = t2 := by
      rcases lt_trichotomy t1 t2 with hlt | heq | hgt
      · exfalso
        have hc : (t1 : ℚ) + 1 ≤ (t2 : ℚ) := by exact_mod_cast Nat.succ_le_of_lt hlt
        linarith
      · exact heq
      · exfalso
        have hc : (t2 : ℚ) + 1 ≤ (t1 : ℚ) := by exact_mod_cast Nat.succ_le_of_lt hgt
        linarith
    refine ⟨ht, ?_⟩
    subst ht
    linarith
  · rintro ⟨h1, h2⟩
    rw [h1, h2]

/-- Witness for the amended C9: two spawns in milliseconds 1000 and 1001 with
equal random draws get distinct ids. -/
theorem claim_vehicle_id_uniqueness_witness :
    vehicleId 1000 (1 / 2) ≠ vehicleId 1001 (1 / 2) := by
  intro h
  have h2 := (claim_vehicle_id_uniqueness 1000 1001 (1 / 2) (1 / 2)
    (by norm_num) (by norm_num) (by norm_num) (by norm_num)).mp h
  exact absurd h2.1 (by decide)

/-! ### Vehicle kinematics pass (mature revision)

The 50 ms vehicle-update effect.  The ambient per-tick computations
(vehicles-inside-intersections, queue-clearance map, emergency-approaching
flag) are factored as explicit parameters of the per-vehicle update and
computed once in `updateVehicles`, exactly as the source computes them once
per interval callback. -/

/-- Test `isInIntersection`: inside the intersection boundary
(`INTERSECTION_SIZE / 2` on each axis). -/
def isInIntersection (v : Vehicle) (i : Intersection) : Bool :=
  decide (|v.x - i.x| < INTERSECTION_SIZE / 2 ∧ |v.y - i.y| < INTERSECTION_SIZE / 2)

/-- ids of vehicles currently inside some intersection (the
`vehiclesInIntersections` set). -/
def vehiclesInIntersectionIds (inters : List Intersection) (prev : List Vehicle) : List ℚ :=
  (prev.filter (fun v => inters.any (isInIntersection v))).map (fun v => v.id)

/-- The `isAhead` test of the congestion scan (no direction-match requirement). -/
def isAheadLoose (ev o : Vehicle) : Bool :=
  match ev.direction with
  | Dir.east => decide (o.x > ev.x ∧ |o.y - ev.y| < LANE_TOLERANCE)
  | Dir.west => decide (o.x < ev.x ∧ |o.y - ev.y| < LANE_TOLERANCE)
  | Dir.south => decide (o.y > ev.y ∧ |o.x - ev.x| < LANE_TOLERANCE)
  | Dir.north => decide (o.y < ev.y ∧ |o.x - ev.x| < LANE_TOLERANCE)

/-- Condition `vehiclesAhead.length > 0` of the congestion scan: some non-emergency
vehicle is ahead of the emergency vehicle in its lane within 200 px. -/
def blockedByQueue (prev : List Vehicle) (ev : Vehicle) : Bool :=
  prev.any (fun o =>
    !decide (o.id = ev.id) && !o.isEmergency &&
    isAheadLoose ev o && decide (distSq o.x o.y ev.x ev.y < 200 ^ 2))

/-- Map `queueClearanceNeeded`: a JS `Map` from intersection id to the emergency
vehicle blocked behind a queue heading for it.  `Map.set` overwrites; inserts
are modelled by consing, and `List.lookup` returns the most recent insert,
which matches `Map.get`. -/
def buildQueueClearance (inters : List Intersection) (prev evs : List Vehicle) :
    List (ℕ × Vehicle) :=
  evs.foldl (fun m ev =>
    if blockedByQueue prev ev then
      inters.foldl (fun m2 i =>
        if isAheadOf ev i.x i.y = true ∧ distSq ev.x ev.y i.x i.y < 300 ^ 2 then
          (i.id, ev) :: m2
        else m2) m
    else m) []

/-- Test `inSameLane` of the queue-clearance check. -/
def inSameLane (v ev : Vehicle) : Bool :=
  decide (v.direction = ev.direction) &&
  (match v.direction with
   | Dir.east => decide (|v.y - ev.y| < LANE_TOLERANCE)
   | Dir.west => decide (|v.y - ev.y| < LANE_TOLERANCE)
   | Dir.north => decide (|v.x - ev.x| < LANE_TOLERANCE)
   | Dir.south => decide (|v.x - ev.x| < LANE_TOLERANCE))

/-- Flag `allowedToMoveForEmergency`: the vehicle sits between a blocked emergency
vehicle and its upcoming intersection in the same lane, within 200 px of the
intersection. -/
def allowedToMove (inters : List Intersection) (qc : List (ℕ × Vehicle)) (v : Vehicle) : Bool :=
  inters.any (fun i =>
    match qc.lookup i.id with
    | none => false
    | some ev =>
        inSameLane v ev &&
        decide (distSq v.x v.y i.x i.y < distSq ev.x ev.y i.x i.y) &&
        decide (distSq v.x v.y i.x i.y < 200 ^ 2))

/-- The `isAhead` test of the collision scan (same direction required). -/
def isAheadStrict (v o : Vehicle) : Bool :=
  match v.direction with
  | Dir.east => decide (o.x > v.x ∧ |o.y - v.y| < LANE_TOLERANCE ∧ o.direction = Dir.east)
  | Dir.west => decide (o.x < v.x ∧ |o.y - v.y| < LANE_TOLERANCE ∧ o.direction = Dir.west)
  | Dir.south => decide (o.y > v.y ∧ |o.x - v.x| < LANE_TOLERANCE ∧ o.direction = Dir.south)
  | Dir.north => decide (o.y < v.y ∧ |o.x - v.x| < LANE_TOLERANCE ∧ o.direction = Dir.north)

/-- One step of the nearest-vehicle-ahead scan; the accumulator carries the
current nearest vehicle and its squared distance (`Infinity` is `none`). -/
def aheadScanStep (v : Vehicle) (acc : Option (Vehicle × ℚ)) (o : Vehicle) :
    Option (Vehicle × ℚ) :=
  if o.id = v.id then acc
  else
    let d2 := distSq o.x o.y v.x v.y
    let better := match acc with
      | none => true
      | some pa => decide (d2 < pa.2)
    if isAheadStrict v o && better then some (o, d2) else acc

/-- The collision scan: only for non-emergency vehicles (`vehicleAhead` stays
`null` for emergency vehicles). -/
def findVehicleAhead (prev : List Vehicle) (v : Vehicle) : Option (Vehicle × ℚ) :=
  if v.isEmergency then none else prev.foldl (aheadScanStep v) none

/-- Flag `emergencyApproaching`: some emergency vehicle is within
`DETECTION_DISTANCE` of some intersection. -/
def emergencyApproaching (prev : List Vehicle) (inters : List Intersection) : Bool :=
  prev.any (fun u =>
    u.isEmergency &&
    inters.any (fun i => decide (distSq u.x u.y i.x i.y < DETECTION_DISTANCE ^ 2)))

/-- Body of the signal-compliance `forEach` over intersections: inside
`INTERSECTION_CHECK_DISTANCE`, `shouldStop` is reassigned by the source's
if/else-if chain (emergency vehicles and cleared vehicles are forced to
`false`); outside, the accumulator is kept. -/
def stopStep (inIds : List ℚ) (emApp allowed : Bool) (v : Vehicle)
    (acc : Bool) (i : Intersection) : Bool :=
  if distSq v.x v.y i.x i.y < INTERSECTION_CHECK_DISTANCE ^ 2 then
    if v.isEmergency then false
    else if allowed then false
    else if emApp && inIds.contains v.id then false
    else if emApp && !(inIds.contains v.id) &&
        decide (distSq v.x v.y i.x i.y > EMERGENCY_STOP_THRESHOLD ^ 2) then true
    else decide ((i.signals.get v.direction).phase = Phase.red ∨
                 (i.signals.get v.direction).phase = Phase.yellow)
  else acc

/-- The full signal-compliance scan (`shouldStop` starts `false`). -/
def shouldStopScan (inters : List Intersection) (inIds : List ℚ)
    (emApp allowed : Bool) (v : Vehicle) : Bool :=
  inters.foldl (stopStep inIds emApp allowed v) false

/-- The intersection the vehicle is currently inside (last match of the
`forEach` wins, as in the source). -/
def currentIntersectionId (inters : List Intersection) (v : Vehicle) : Option ℕ :=
  inters.foldl (fun acc i => if isInIntersection v i then some i.id else acc) none

/-- Movement along the unit vector toward `(dx, dy)` by `s` pixels: the host
computes `cos/sin` of `atan2(dy, dx)`, i.e. `dx / d` and `dy / d` with `d` the
Euclidean distance; the square root is abstracted as the parameter `sq`,
applied to the squared distance. -/
def stepToward (sq : ℚ → ℚ) (x y dx dy s : ℚ) : ℚ × ℚ :=
  let d := sq (dx ^ 2 + dy ^ 2)
  (x + s * dx / d, y + s * dy / d)

/-- The plain-motion tail of the update: move at
`speed * simulationSpeed`, clear `stopped`, and tag a turning status while on
path segment 1. -/
def moveV (sq : ℚ → ℚ) (simSpeed : ℚ) (v : Vehicle) (dx dy : ℚ) : Vehicle :=
  let s := v.speed * simSpeed
  let p := stepToward sq v.x v.y dx dy s
  { v with
      x := p.1, y := p.2, stopped := false,
      status :=
        if v.turnDirection.isSome ∧ v.pathIndex = some 1 then
          Status.turning (v.turnDirection.getD TurnDir.straight)
        else Status.moving }

/-- Waypoint progression: advance to the next waypoint; the direction change
commits only when `turnTo` is set, the current path segment is 1, and the
intersection the vehicle is inside matches `plannedTurnIntersectionId`;
reaching the last waypoint removes the vehicle (`none`). -/
def waypointAdvance (inters : List Intersection) (v : Vehicle) (p : List Pt) (k : ℕ) :
    Option Vehicle :=
  let nextIndex := k + 1
  if nextIndex < p.length then
    let wp := p.getD nextIndex ⟨0, 0⟩
    let newDirection :=
      if v.turnTo.isSome ∧ k = 1 then
        if currentIntersectionId inters v = v.plannedTurnIntersectionId then
          v.turnTo.getD v.direction
        else v.direction
      else v.direction
    some { v with
      targetX := wp.x, targetY := wp.y, direction := newDirection,
      pathIndex := some nextIndex,
      status :=
        match v.turnDirection with
        | some t => Status.turning t
        | none => Status.moving }
  else none

/-- The stopped/waypoint/move tail of the per-vehicle update, after the
following logic. -/
def updateVehicleTail (sq : ℚ → ℚ) (simSpeed : ℚ) (inters : List Intersection)
    (v : Vehicle) (dx dy d2 : ℚ) (stop allowed : Bool) : Option Vehicle :=
  if stop && !allowed then some { v with stopped := true, status := Status.stopped }
  else
    match v.path, v.pathIndex with
    | some p, some k =>
        if k < p.length ∧ d2 < WAYPOINT_REACH_DISTANCE ^ 2 then waypointAdvance inters v p k
        else some (moveV sq simSpeed v dx dy)
    | _, _ => some (moveV sq simSpeed v dx dy)

/-- The per-vehicle update of the 50 ms kinematics effect.  `none` marks the
vehicle for removal.  The following branch only fires when the collision scan
produced a nearest vehicle ahead, which never happens for emergency vehicles. -/
def updateVehicle (sq : ℚ → ℚ) (simSpeed : ℚ) (inters : List Intersection)
    (inIds : List ℚ) (qc : List (ℕ × Vehicle)) (emApp : Bool)
    (prev : List Vehicle) (v : Vehicle) : Option Vehicle :=
  let dx := v.targetX - v.x
  let dy := v.targetY - v.y
  let d2 := dx ^ 2 + dy ^ 2
  if d2 < DESTINATION_REACH_DISTANCE ^ 2 then none
  else
    let allowed := allowedToMove inters qc v
    let stop := shouldStopScan inters inIds emApp allowed v
    match findVehicleAhead prev v with
    | some pa =>
        if decide (pa.2 < SAFE_DISTANCE ^ 2) && !allowed then
          if pa.1.stopped then some { v with stopped := true, status := Status.stoppedQueue }
          else
            let rs := pa.1.speed * simSpeed * DECELERATION_FACTOR
            let pnew := stepToward sq v.x v.y dx dy rs
            some { v with x := pnew.1, y := pnew.2, stopped := false, status := Status.following }
        else updateVehicleTail sq simSpeed inters v dx dy d2 stop allowed
    | none => updateVehicleTail sq simSpeed inters v dx dy d2 stop allowed

/-- The whole kinematics pass: map the per-vehicle update over the pre-tick
snapshot and drop the removed vehicles. -/
def updateVehicles (sq : ℚ → ℚ) (simSpeed : ℚ) (inters : List Intersection)
    (prev : List Vehicle) : List Vehicle :=
  let inIds := vehiclesInIntersectionIds inters prev
  let evs := prev.filter (fun v => v.isEmergency)
  let qc := buildQueueClearance inters prev evs
  let emApp := emergencyApproaching prev inters
  (prev.map (updateVehicle sq simSpeed inters inIds qc emApp prev)).reduceOption

theorem shouldStopScan_emergency (inters : List Intersection) (inIds : List ℚ)
    (emApp allowed : Bool) (v : Vehicle) (he : v.isEmergency = true) :
    shouldStopScan inters inIds emApp allowed v = false := by
  unfold shouldStopScan
  have hstep : ∀ (acc : Bool) (i : Intersection),
      acc = false → stopStep inIds emApp allowed v acc i = false := by
    intro acc i hacc
    unfold stopStep
    rw [he]
    split
    · rfl
    · exact hacc
  induction inters with
  | nil => rfl
  | cons i rest ih =>
      rw [List.foldl_cons, hstep false i rfl]
      exact ih

/-- Claim C6: the kinematics pass never stops or decelerates an emergency
vehicle: the collision scan is skipped (`findVehicleAhead` is `none`), the
signal-compliance result is forced `false`, and the updated vehicle — when not
removed on reaching its target — has `stopped = false`, a status that is none
of `stopped`, `stopped (queue)`, `following`, and either keeps its position
(a pure waypoint retarget) or moves by the full-speed step
`speed * simulationSpeed` toward its target. -/
theorem claim_emergency_never_stops (sq : ℚ → ℚ) (simSpeed : ℚ)
    (inters : List Intersection) (inIds : List ℚ) (qc : List (ℕ × Vehicle))
    (emApp : Bool) (prev : List Vehicle) (v : Vehicle)
    (he : v.isEmergency = true) (hst : v.stopped = false) :
    updateVehicle sq simSpeed inters inIds qc emApp prev v = none ∨
    ∃ w, updateVehicle sq simSpeed inters inIds qc emApp prev v = some w ∧
      w.stopped = false ∧
      w.status ≠ Status.stopped ∧ w.status ≠ Status.stoppedQueue ∧
      w.status ≠ Status.following ∧
      ((w.x = v.x ∧ w.y = v.y) ∨
        (w.x, w.y) = stepToward sq v.x v.y (v.targetX - v.x) (v.targetY - v.y)
          (v.speed * simSpeed)) := by
  have hahead : findVehicleAhead prev v = none := by
    unfold findVehicleAhead
    rw [he]
    rfl
  have hstop : ∀ allowed : Bool, shouldStopScan inters inIds emApp allowed v = false :=
    fun allowed => shouldStopScan_emergency inters inIds emApp allowed v he
  unfold updateVehicle
  simp only [hahead, hstop]
  split
  · exact Or.inl rfl
  · unfold updateVehicleTail
    simp only [Bool.false_and, Bool.false_eq_true, if_false]
    split
    next p k hp hk =>
      split
      · unfold waypointAdvance
        dsimp only
        split
        · refine Or.inr ⟨_, rfl, hst, ?_, ?_, ?_, Or.inl ⟨rfl, rfl⟩⟩ <;>
            rcases v.turnDirection with _ | t <;> simp
        · exact Or.inl rfl
      · refine Or.inr ⟨_, rfl, rfl, ?_, ?_, ?_, Or.inr rfl⟩ <;>
          unfold moveV <;> dsimp only <;> split <;> simp
    next hmatch =>
      refine Or.inr ⟨_, rfl, rfl, ?_, ?_, ?_, Or.inr rfl⟩ <;>
        unfold moveV <;> dsimp only <;> split <;> simp

/-- Witness for C6: a concrete emergency vehicle with no surrounding traffic
and no intersections in range; the update is the full-speed move. -/
theorem claim_emergency_never_stops_witness :
    updateVehicle (fun _ => 1) 1 [] [] [] false
        [⟨0, VType.emergency, 0, 0, 100, 0, Dir.east, 4, false, Status.moving,
          true, none, none, none, none, 1, none⟩]
        ⟨0, VType.emergency, 0, 0, 100, 0, Dir.east, 4, false, Status.moving,
          true, none, none, none, none, 1, none⟩ = none ∨
    ∃ w, updateVehicle (fun _ => 1) 1 [] [] [] false
        [⟨0, VType.emergency, 0, 0, 100, 0, Dir.east, 4, false, Status.moving,
          true, none, none, none, none, 1, none⟩]
        ⟨0, VType.emergency, 0, 0, 100, 0, Dir.east, 4, false, Status.moving,
          true, none, none, none, none, 1, none⟩ = some w ∧
      w.stopped = false ∧
      w.status ≠ Status.stopped ∧ w.status ≠ Status.stoppedQueue ∧
      w.status ≠ Status.following ∧
      ((w.x = 0 ∧ w.y = 0) ∨
        (w.x, w.y) = stepToward (fun _ => 1) 0 0 (100 - 0) (0 - 0) (4 * 1)) :=
  claim_emergency_never_stops (fun _ => 1) 1 [] [] [] false _ _ rfl rfl

/-! ### Route planner (mature revision): emergency turn routes and
`plannedTurnIntersectionId` -/

/-- One entry of `emergencyTurnRoutes` (its `turnAt` field is never read by a
modelled pass and is omitted). -/
structure TurnRoute where
  start : Pt
  waypoint : Pt
  endPt : Pt
  direction : Dir
  turnTo : Dir
deriving DecidableEq, Repr

/-- Table `emergencyTurnRoutes` of the mature revision (scaled grid), all four
approach directions per turn sense; the JS object has no entry under
`'straight'`. -/
def emergencyTurnRoutes : TurnDir → List TurnRoute
  | TurnDir.right =>
      [⟨⟨488, 950⟩, ⟨488, 290⟩, ⟨1550, 252⟩, Dir.north, Dir.east⟩,
       ⟨⟨-50, 252⟩, ⟨490, 252⟩, ⟨452, 950⟩, Dir.east, Dir.south⟩,
       ⟨⟨452, -50⟩, ⟨452, 290⟩, ⟨-50, 288⟩, Dir.south, Dir.west⟩,
       ⟨⟨1550, 288⟩, ⟨490, 288⟩, ⟨488, -50⟩, Dir.west, Dir.north⟩]
  | TurnDir.left =>
      [⟨⟨488, 950⟩, ⟨488, 290⟩, ⟨-50, 288⟩, Dir.north, Dir.west⟩,
       ⟨⟨-50, 252⟩, ⟨490, 252⟩, ⟨488, -50⟩, Dir.east, Dir.north⟩,
       ⟨⟨452, -50⟩, ⟨452, 290⟩, ⟨1550, 252⟩, Dir.south, Dir.east⟩,
       ⟨⟨1550, 288⟩, ⟨490, 288⟩, ⟨452, 950⟩, Dir.west, Dir.south⟩]
  | TurnDir.straight => []

/-- Ascending stable insertion by the (squared) distance component; together
with the fold below this is the JS stable `sort((a, b) => a.distance - b.distance)`. -/
def insertByDist (p : Intersection × ℚ) : List (Intersection × ℚ) → List (Intersection × ℚ)
  | [] => [p]
  | q :: rest => if p.2 < q.2 then p :: q :: rest else q :: insertByDist p rest

/-- Function `findIntersectionsInPath(vehicle, maxDistance)`: the intersections ahead of
the vehicle within `maxDistance`, paired with their squared distances, sorted
ascending. -/
def findIntersectionsInPath (inters : List Intersection) (v : Vehicle) (maxDist : ℚ) :
    List (Intersection × ℚ) :=
  let inPath := (inters.filter (fun i =>
      isAheadOf v i.x i.y && decide (distSq v.x v.y i.x i.y ≤ maxDist ^ 2))).map
    (fun i => (i, distSq v.x v.y i.x i.y))
  inPath.foldl (fun acc p => insertByDist p acc) []

/-- Fallback default for list indexing (never reached under the guards). -/
def dummyIntersectionDist : Intersection × ℚ := (init1, 0)

/-- The emergency-with-turn branch of `addVehicle`: route selection among the
four canonical turn routes (`idx` stands for `Math.floor(Math.random() * 4)`),
the three-point path, the spawned vehicle record, and the route-planning step
that fixes `plannedTurnIntersectionId` (second intersection in path if at
least two, else the first, else left `null`). -/
def addEmergencyWithTurn (vid : ℚ) (vt : VType) (turn : TurnDir) (idx : Fin 4)
    (inters : List Intersection) : Vehicle :=
  let route := (emergencyTurnRoutes turn).getD idx.val
    ⟨⟨488, 950⟩, ⟨488, 290⟩, ⟨1550, 252⟩, Dir.north, Dir.east⟩
  let path : List Pt := [route.start, route.waypoint, route.endPt]
  let v : Vehicle :=
    { id := vid, vtype := vt,
      x := route.start.x, y := route.start.y,
      targetX := (path.getD 1 ⟨0, 0⟩).x, targetY := (path.getD 1 ⟨0, 0⟩).y,
      direction := route.direction, speed := 4,
      stopped := false, status := Status.moving,
      isEmergency := isEmergencyType vt,
      turnDirection := some turn, turnTo := some route.turnTo,
      path := some path, pathIndex := some 1, lane := 1,
      plannedTurnIntersectionId := none }
  let inPath := findIntersectionsInPath inters v 1000
  let planned : Option ℕ :=
    if 2 ≤ inPath.length then some (inPath.getD 1 dummyIntersectionDist).1.id
    else if 1 ≤ inPath.length then some (inPath.getD 0 dummyIntersectionDist).1.id
    else none
  { v with plannedTurnIntersectionId := planned }

/-- Claim-side definition, following the spec's words: scan the intersections
ahead of the vehicle's initial direction (no range cap), ordered by ascending
distance; plan the turn at the second one when at least two lie ahead, at the
sole one when exactly one lies ahead, and at none otherwise. -/
def specPlannedTurnId (inters : List Intersection) (v : Vehicle) : Option ℕ :=
  let ahead := ((inters.filter (fun i => isAheadOf v i.x i.y)).map
      (fun i => (i, distSq v.x v.y i.x i.y))).foldl (fun acc p => insertByDist p acc) []
  match ahead with
  | [] => none
  | [a] => some a.1.id
  | _ :: b :: _ => some b.1.id

/-- A minimal vehicle with the given position and direction; route planning
reads only these three fields (the source notes this explicitly), so it is
interchangeable with the full spawned record there. -/
def planProbe (px py : ℚ) (d : Dir) : Vehicle :=
  ⟨0, VType.emergency, px, py, 0, 0, d, 4, false, Status.moving, true,
    none, none, none, none, 1, none⟩

/-- The route-planning step of `addVehicle`, expressed as a function of the
selected turn route. -/
def codePlanFromRoute (inters : List Intersection) (route : TurnRoute) : Option ℕ :=
  let inPath := findIntersectionsInPath inters
    (planProbe route.start.x route.start.y route.direction) 1000
  if 2 ≤ inPath.length then some (inPath.getD 1 dummyIntersectionDist).1.id
  else if 1 ≤ inPath.length then some (inPath.getD 0 dummyIntersectionDist).1.id
  else none

theorem findIntersectionsInPath_congr (inters : List Intersection) (v w : Vehicle)
    (maxD : ℚ) (hx : v.x = w.x) (hy : v.y = w.y) (hd : v.direction = w.direction) :
    findIntersectionsInPath inters v maxD = findIntersectionsInPath inters w maxD := by
  unfold findIntersectionsInPath isAheadOf
  simp only [hx, hy, hd]

theorem specPlannedTurnId_congr (inters : List Intersection) (v w : Vehicle)
    (hx : v.x = w.x) (hy : v.y = w.y) (hd : v.direction = w.direction) :
    specPlannedTurnId inters v = specPlannedTurnId inters w := by
  unfold specPlannedTurnId isAheadOf
  simp only [hx, hy, hd]

theorem addEmergencyWithTurn_planned (vid : ℚ) (vt : VType) (turn : TurnDir)
    (idx : Fin 4) (inters : List Intersection) :
    (addEmergencyWithTurn vid vt turn idx inters).plannedTurnIntersectionId
      = codePlanFromRoute inters ((emergencyTurnRoutes turn).getD idx.val
          ⟨⟨488, 950⟩, ⟨488, 290⟩, ⟨1550, 252⟩, Dir.north, Dir.east⟩) := by
  unfold addEmergencyWithTurn codePlanFromRoute
  dsimp only
  rw [findIntersectionsInPath_congr inters _ (planProbe _ _ _) 1000 rfl rfl rfl]
  rfl

theorem spawn_spec_probe (vid : ℚ) (vt : VType) (turn : TurnDir) (idx : Fin 4) :
    specPlannedTurnId initialIntersections
        (addEmergencyWithTurn vid vt turn idx initialIntersections)
      = specPlannedTurnId initialIntersections
          (planProbe
            ((emergencyTurnRoutes turn).getD idx.val
              ⟨⟨488, 950⟩, ⟨488, 290⟩, ⟨1550, 252⟩, Dir.north, Dir.east⟩).start.x
            ((emergencyTurnRoutes turn).getD idx.val
              ⟨⟨488, 950⟩, ⟨488, 290⟩, ⟨1550, 252⟩, Dir.north, Dir.east⟩).start.y
            ((emergencyTurnRoutes turn).getD idx.val
              ⟨⟨488, 950⟩, ⟨488, 290⟩, ⟨1550, 252⟩, Dir.north, Dir.east⟩).direction) :=
  specPlannedTurnId_congr _ _ _ rfl rfl rfl

theorem waypointAdvance_planned (inters : List Intersection) (v : Vehicle) (p : List Pt)
    (k : ℕ) (w : Vehicle) (h : waypointAdvance inters v p k = some w) :
    w.plannedTurnIntersectionId = v.plannedTurnIntersectionId := by
  unfold waypointAdvance at h
  dsimp only at h
  split at h
  · rw [← Option.some.inj h]
  · exact absurd h (by simp)

theorem updateVehicleTail_planned (sq : ℚ → ℚ) (simSpeed : ℚ)
    (inters : List Intersection) (v : Vehicle) (dx dy d2 : ℚ) (stop allowed : Bool)
    (w : Vehicle) (h : updateVehicleTail sq simSpeed inters v dx dy d2 stop allowed = some w) :
    w.plannedTurnIntersectionId = v.plannedTurnIntersectionId := by
  unfold updateVehicleTail at h
  split at h
  · rw [← Option.some.inj h]
  · split at h
    · split at h
      · exact waypointAdvance_planned _ _ _ _ _ h
      · rw [← Option.some.inj h]
        rfl
    · rw [← Option.some.inj h]
      rfl

set_option maxRecDepth 16384 in
/-- Claim C5: for every emergency vehicle spawned with a non-straight turn
intent (any of the four canonical routes, either turn sense), the route
planner sets `plannedTurnIntersectionId` exactly as the spec describes it —
the second intersection ahead ordered by ascending distance when at least two
lie ahead, the sole one when exactly one does, `null` when none does — and the
kinematics pass never changes the field afterwards, so it is fixed for the
vehicle's lifetime. -/
theorem claim_route_planner_second_intersection (vid : ℚ) (vt : VType)
    (turn : TurnDir) (idx : Fin 4)
    (ht : turn = TurnDir.left ∨ turn = TurnDir.right) :
    ((addEmergencyWithTurn vid vt turn idx initialIntersections).plannedTurnIntersectionId
        = specPlannedTurnId initialIntersections
            (addEmergencyWithTurn vid vt turn idx initialIntersections)) ∧
    (∀ (sq : ℚ → ℚ) (simSpeed : ℚ) (inters : List Intersection) (inIds : List ℚ)
        (qc : List (ℕ × Vehicle)) (emApp : Bool) (prev : List Vehicle) (v w : Vehicle),
        updateVehicle sq simSpeed inters inIds qc emApp prev v = some w →
        w.plannedTurnIntersectionId = v.plannedTurnIntersectionId) := by
  constructor
  · rcases ht with h | h <;> subst h <;>
      rw [addEmergencyWithTurn_planned, spawn_spec_probe] <;> fin_cases idx
    · trans (some 4 : Option ℕ)
      · norm_num [codePlanFromRoute, planProbe, findIntersectionsInPath, emergencyTurnRoutes,
          isAheadOf, distSq, insertByDist, initialIntersections, init1, init2, init3,
          init4, dummyIntersectionDist, List.filter, List.map, List.foldl, List.getD]
      · symm
        norm_num [specPlannedTurnId, planProbe, emergencyTurnRoutes, isAheadOf, distSq,
          insertByDist, initialIntersections, init1, init2, init3, init4,
          List.filter, List.map, List.foldl, List.getD]
    · trans (some 3 : Option ℕ)
      · norm_num [codePlanFromRoute, planProbe, findIntersectionsInPath, emergencyTurnRoutes,
          isAheadOf, distSq, insertByDist, initialIntersections, init1, init2, init3,
          init4, dummyIntersectionDist, List.filter, List.map, List.foldl, List.getD]
      · symm
        norm_num [specPlannedTurnId, planProbe, emergencyTurnRoutes, isAheadOf, distSq,
          insertByDist, initialIntersections, init1, init2, init3, init4,
          List.filter, List.map, List.foldl, List.getD]
    · trans (some 2 : Option ℕ)
      · norm_num [codePlanFromRoute, planProbe, findIntersectionsInPath, emergencyTurnRoutes,
          isAheadOf, distSq, insertByDist, initialIntersections, init1, init2, init3,
          init4, dummyIntersectionDist, List.filter, List.map, List.foldl, List.getD]
      · symm
        norm_num [specPlannedTurnId, planProbe, emergencyTurnRoutes, isAheadOf, distSq,
          insertByDist, initialIntersections, init1, init2, init3, init4,
          List.filter, List.map, List.foldl, List.getD]
    · trans (some 4 : Option ℕ)
      · norm_num [codePlanFromRoute, planProbe, findIntersectionsInPath, emergencyTurnRoutes,
          isAheadOf, distSq, insertByDist, initialIntersections, init1, init2, init3,
          init4, dummyIntersectionDist, List.filter, List.map, List.foldl, List.getD]
      · symm
        norm_num [specPlannedTurnId, planProbe, emergencyTurnRoutes, isAheadOf, distSq,
          insertByDist, initialIntersections, init1, init2, init3, init4,
          List.filter, List.map, List.foldl, List.getD]
    · trans (some 4 : Option ℕ)
      · norm_num [codePlanFromRoute, planProbe, findIntersectionsInPath, emergencyTurnRoutes,
          isAheadOf, distSq, insertByDist, initialIntersections, init1, init2, init3,
          init4, dummyIntersectionDist, List.filter, List.map, List.foldl, List.getD]
      · symm
        norm_num [specPlannedTurnId, planProbe, emergencyTurnRoutes, isAheadOf, distSq,
          insertByDist, initialIntersections, init1, init2, init3, init4,
          List.filter, List.map, List.foldl, List.getD]
    · trans (some 3 : Option ℕ)
      · norm_num [codePlanFromRoute, planProbe, findIntersectionsInPath, emergencyTurnRoutes,
          isAheadOf, distSq, insertByDist, initialIntersections, init1, init2, init3,
          init4, dummyIntersectionDist, List.filter, List.map, List.foldl, List.getD]
      · symm
        norm_num [specPlannedTurnId, planProbe, emergencyTurnRoutes, isAheadOf, distSq,
          insertByDist, initialIntersections, init1, init2, init3, init4,
          List.filter, List.map, List.foldl, List.getD]
    · trans (some 2 : Option ℕ)
      · norm_num [codePlanFromRoute, planProbe, findIntersectionsInPath, emergencyTurnRoutes,
          isAheadOf, distSq, insertByDist, initialIntersections, init1, init2, init3,
          init4, dummyIntersectionDist, List.filter, List.map, List.foldl, List.getD]
      · symm
        norm_num [specPlannedTurnId, planProbe, emergencyTurnRoutes, isAheadOf, distSq,
          insertByDist, initialIntersections, init1, init2, init3, init4,
          List.filter, List.map, List.foldl, List.getD]
    · trans (some 4 : Option ℕ)
      · norm_num [codePlanFromRoute, planProbe, findIntersectionsInPath, emergencyTurnRoutes,
          isAheadOf, distSq, insertByDist, initialIntersections, init1, init2, init3,
          init4, dummyIntersectionDist, List.filter, List.map, List.foldl, List.getD]
      · symm
        norm_num [specPlannedTurnId, planProbe, emergencyTurnRoutes, isAheadOf, distSq,
          insertByDist, initialIntersections, init1, init2, init3, init4,
          List.filter, List.map, List.foldl, List.getD]
  · intro sq simSpeed inters inIds qc emApp prev v w h
    unfold updateVehicle at h
    dsimp only at h
    split at h
    · exact absurd h (by simp)
    · split at h
      · split at h
        · split at h
          · rw [← Option.some.inj h]
          · rw [← Option.some.inj h]
        · exact updateVehicleTail_planned _ _ _ _ _ _ _ _ _ _ h
      · exact updateVehicleTail_planned _ _ _ _ _ _ _ _ _ _ h

/-- Witness for C5: the concrete EAST-approach left-turn spawn; the planner
picks the second intersection ahead. -/
theorem claim_route_planner_second_intersection_witness :
    (addEmergencyWithTurn 0 VType.emergency TurnDir.left 1
        initialIntersections).plannedTurnIntersectionId
      = specPlannedTurnId initialIntersections
          (addEmergencyWithTurn 0 VType.emergency TurnDir.left 1 initialIntersections) :=
  (claim_route_planner_second_intersection 0 VType.emergency TurnDir.left 1
    (Or.inl rfl)).1

/-! ### Communication simulator and the full simulation state (C7) -/

/-- Link type of a communication link. -/
inductive LinkType
  | v2v
  | v2i
deriving DecidableEq, Repr

/-- One ephemeral communication link: type plus the two endpoints. -/
structure CommLink where
  linkType : LinkType
  fromX : ℚ
  fromY : ℚ
  toX : ℚ
  toY : ℚ
deriving DecidableEq, Repr

/-- One V2I broadcast message of the mature revision.  The constant field
`urgency: 'HIGH'` is omitted; `distanceToIntersection` and the ETA are filled
through the abstracted square root `sq` applied to the squared distance. -/
structure V2IMessage where
  vehicleId : ℚ
  vehicleType : VType
  posX : ℚ
  posY : ℚ
  direction : Dir
  speed : ℚ
  turnIntention : TurnDir
  actionAtThisIntersection : TurnDir
  requestingPriority : Bool
  estimatedTimeToIntersection : ℚ
  targetIntersectionId : ℕ
  distanceToIntersection : ℚ
  timestamp : ℚ
deriving DecidableEq, Repr

/-- The aggregate statistics counters. -/
structure Statistics where
  totalVehicles : ℕ
  emergencyEvents : ℕ
  communicationMessages : ℕ
  v2iBroadcasts : ℕ
deriving DecidableEq, Repr

/-- The ambient simulation state held by the provider. -/
structure SimState where
  isPaused : Bool
  simulationSpeed : ℚ
  vehicles : List Vehicle
  intersections : List Intersection
  communicationLinks : List CommLink
  v2iMessages : List V2IMessage
  statistics : Statistics
deriving Repr

/-- The V2V links of one vehicle against the remainder of the list
(`vehicles.slice(i + 1)`): every pair within 100 px. -/
def v2vLinksFor (v1 : Vehicle) (rest : List Vehicle) : List CommLink :=
  (rest.filter (fun v2 => decide (distSq v1.x v1.y v2.x v2.y < 100 ^ 2))).map
    (fun v2 => ⟨LinkType.v2v, v1.x, v1.y, v2.x, v2.y⟩)

/-- The V2I links of one vehicle: an emergency vehicle links only to its
immediate next in-path intersection within (`V2I_MIN`, `V2I_MAX`]; a regular
vehicle links to every intersection within the regular radius. -/
def v2iLinksFor (inters : List Intersection) (v1 : Vehicle) : List CommLink :=
  if v1.isEmergency then
    match findIntersectionsInPath inters v1 500 with
    | [] => []
    | n :: _ =>
        if n.2 ≤ V2I_COMMUNICATION_MAX_DISTANCE ^ 2 ∧
            n.2 > V2I_COMMUNICATION_MIN_DISTANCE ^ 2 then
          [⟨LinkType.v2i, v1.x, v1.y, n.1.x, n.1.y⟩]
        else []
  else
    (inters.filter (fun i =>
        decide (distSq v1.x v1.y i.x i.y < V2I_REGULAR_COMMUNICATION_DISTANCE ^ 2))).map
      (fun i => ⟨LinkType.v2i, v1.x, v1.y, i.x, i.y⟩)

/-- The link list built by one 500 ms communication interval, in source order
(per vehicle: its V2V links, then its V2I links). -/
def commLinksAux (inters : List Intersection) : List Vehicle → List CommLink
  | [] => []
  | v1 :: rest => v2vLinksFor v1 rest ++ v2iLinksFor inters v1 ++ commLinksAux inters rest

/-- The V2V/V2I communication effect: recompute the link list and set the
`communicationMessages` counter to its length. -/
def commTick (s : SimState) : SimState :=
  if s.isPaused then s
  else
    let links := commLinksAux s.intersections s.vehicles
    { s with
        communicationLinks := links,
        statistics := { s.statistics with communicationMessages := links.length } }

/-- The V2I message one emergency vehicle broadcasts to its immediate next
in-path intersection, when in range.  (`receiveV2IMessage`, invoked on the
message, only logs.) -/
def broadcastMessage (sq : ℚ → ℚ) (now : ℚ) (inters : List Intersection)
    (simSpeed : ℚ) (ev : Vehicle) : Option V2IMessage :=
  match findIntersectionsInPath inters ev 500 with
  | [] => none
  | n :: _ =>
      if n.2 ≤ V2I_COMMUNICATION_MAX_DISTANCE ^ 2 ∧
          n.2 > V2I_COMMUNICATION_MIN_DISTANCE ^ 2 then
        let action :=
          if ev.plannedTurnIntersectionId = some n.1.id then
            ev.turnDirection.getD TurnDir.straight
          else TurnDir.straight
        let dist := sq n.2
        some
          { vehicleId := ev.id, vehicleType := ev.vtype,
            posX := ev.x, posY := ev.y, direction := ev.direction, speed := ev.speed,
            turnIntention := ev.turnDirection.getD TurnDir.straight,
            actionAtThisIntersection := action,
            requestingPriority := true,
            estimatedTimeToIntersection := dist / (ev.speed * simSpeed),
            targetIntersectionId := n.1.id,
            distanceToIntersection := dist,
            timestamp := now }
      else none

/-- The 200 ms V2I broadcasting effect: rebuild the message list from the
emergency vehicles and bump the `v2iBroadcasts` counter. -/
def broadcastTick (sq : ℚ → ℚ) (now : ℚ) (s : SimState) : SimState :=
  if s.isPaused then s
  else
    let messages := (s.vehicles.filter (fun v => v.isEmergency)).filterMap
      (broadcastMessage sq now s.intersections s.simulationSpeed)
    { s with
        v2iMessages := messages,
        statistics :=
          { s.statistics with v2iBroadcasts := s.statistics.v2iBroadcasts + messages.length } }

/-- The signal-cycling effect as a state transform. -/
def signalTick (s : SimState) : SimState :=
  if s.isPaused then s
  else { s with intersections := s.intersections.map (signalTickI s.simulationSpeed) }

/-- The preemption effect as a state transform (it runs on every vehicle-list
change, pause or not). -/
def preemptTick (s : SimState) : SimState :=
  { s with intersections := preemptPass s.vehicles s.intersections }

/-- The kinematics effect as a state transform. -/
def kinematicsTick (sq : ℚ → ℚ) (s : SimState) : SimState :=
  if s.isPaused then s
  else { s with vehicles := updateVehicles sq s.simulationSpeed s.intersections s.vehicles }

/-- One engine tick without the Communication Simulator, in the documented
order: signal advancement, preemption recomputation, vehicle kinematics. -/
def engineTick (sq : ℚ → ℚ) (s : SimState) : SimState :=
  kinematicsTick sq (preemptTick (signalTick s))

/-- One engine tick with the Communication Simulator enabled (link pass and
broadcast pass appended). -/
def fullTick (sq : ℚ → ℚ) (now : ℚ) (s : SimState) : SimState :=
  broadcastTick sq now (commTick (engineTick sq s))

/-- The engine-visible projection of a state: pause flag, speed multiplier,
vehicles, intersections — everything the non-communication passes read. -/
def proj (s : SimState) : Bool × ℚ × List Vehicle × List Intersection :=
  (s.isPaused, s.simulationSpeed, s.vehicles, s.intersections)

theorem proj_commTick (s : SimState) : proj (commTick s) = proj s := by
  unfold commTick
  split <;> rfl

theorem proj_broadcastTick (sq : ℚ → ℚ) (now : ℚ) (s : SimState) :
    proj (broadcastTick sq now s) = proj s := by
  unfold broadcastTick
  split <;> rfl

/-- The signal tick expressed on the engine-visible projection. -/
def signalStepC (p : Bool × ℚ × List Vehicle × List Intersection) :
    Bool × ℚ × List Vehicle × List Intersection :=
  if p.1 then p else (p.1, p.2.1, p.2.2.1, (p.2.2.2).map (signalTickI p.2.1))

/-- The preemption tick expressed on the engine-visible projection. -/
def preemptStepC (p : Bool × ℚ × List Vehicle × List Intersection) :
    Bool × ℚ × List Vehicle × List Intersection :=
  (p.1, p.2.1, p.2.2.1, preemptPass p.2.2.1 p.2.2.2)

/-- The kinematics tick expressed on the engine-visible projection. -/
def kinematicsStepC (sq : ℚ → ℚ) (p : Bool × ℚ × List Vehicle × List Intersection) :
    Bool × ℚ × List Vehicle × List Intersection :=
  if p.1 then p else (p.1, p.2.1, updateVehicles sq p.2.1 p.2.2.2 p.2.2.1, p.2.2.2)

theorem proj_signalTick (s : SimState) : proj (signalTick s) = signalStepC (proj s) := by
  by_cases hp : s.isPaused = true <;> simp [signalTick, signalStepC, proj, hp]

theorem proj_preemptTick (s : SimState) : proj (preemptTick s) = preemptStepC (proj s) := by
  simp [preemptTick, preemptStepC, proj]

theorem proj_kinematicsTick (sq : ℚ → ℚ) (s : SimState) :
    proj (kinematicsTick sq s) = kinematicsStepC sq (proj s) := by
  by_cases hp : s.isPaused = true <;> simp [kinematicsTick, kinematicsStepC, proj, hp]

theorem proj_engineTick (sq : ℚ → ℚ) (s : SimState) :
    proj (engineTick sq s) = kinematicsStepC sq (preemptStepC (signalStepC (proj s))) := by
  unfold engineTick
  rw [proj_kinematicsTick, proj_preemptTick, proj_signalTick]

theorem proj_engineTick_congr (sq : ℚ → ℚ) (s t : SimState) (h : proj s = proj t) :
    proj (engineTick sq s) = proj (engineTick sq t) := by
  rw [proj_engineTick, proj_engineTick, h]

theorem proj_fullTick (sq : ℚ → ℚ) (now : ℚ) (s : SimState) :
    proj (fullTick sq now s) = proj (engineTick sq s) := by
  unfold fullTick
  rw [proj_broadcastTick, proj_commTick]

theorem proj_iterate (sq : ℚ → ℚ) (now : ℚ) (n : ℕ) (s : SimState) :
    proj ((fullTick sq now)^[n] s) = proj ((engineTick sq)^[n] s) := by
  induction n with
  | zero => rfl
  | succ n ih =>
      rw [Function.iterate_succ_apply', Function.iterate_succ_apply',
        proj_fullTick]
      exact proj_engineTick_congr sq _ _ ih

/-- Claim C7: the Communication Simulator is purely observational.  The link
pass and the broadcast pass leave every vehicle and every intersection
untouched (they write only the link list, the message list and the
statistics counters), and running any number of engine ticks with the
communication passes enabled produces exactly the same vehicle list and
intersection list as running them with the communication passes removed. -/
theorem claim_communication_observational (sq : ℚ → ℚ) (now : ℚ) :
    (∀ s : SimState, (commTick s).vehicles = s.vehicles ∧
        (commTick s).intersections = s.intersections) ∧
    (∀ s : SimState, (broadcastTick sq now s).vehicles = s.vehicles ∧
        (broadcastTick sq now s).intersections = s.intersections) ∧
    (∀ (n : ℕ) (s : SimState),
        ((fullTick sq now)^[n] s).vehicles = ((engineTick sq)^[n] s).vehicles ∧
        ((fullTick sq now)^[n] s).intersections = ((engineTick sq)^[n] s).intersections) := by
  refine ⟨?_, ?_, ?_⟩
  · intro s
    have h := proj_commTick s
    exact ⟨congrArg (fun p => p.2.2.1) h, congrArg (fun p => p.2.2.2) h⟩
  · intro s
    have h := proj_broadcastTick sq now s
    exact ⟨congrArg (fun p => p.2.2.1) h, congrArg (fun p => p.2.2.2) h⟩
  · intro n s
    have h := proj_iterate sq now n s
    exact ⟨congrArg (fun p => p.2.2.1) h, congrArg (fun p => p.2.2.2) h⟩

end V2I
